import Mathlib

set_option linter.unusedVariables false

/-!
Shallow embedding of files/target/usr/lib/nagios/plugins/check_etcd_v3_cluster.py.

External process invocation and JSON decoding are abstracted at their
interface: a command result carries the exit status, the raw output lines and
the outcome of json.loads on the raw bytes (none when a
json.decoder.JSONDecodeError would be raised, some records when the bytes
decode to the expected record shape). Everything downstream of those
boundaries is translated directly from the Python source, including its
defects; comments cite the source lines.
-/

/-- V3ClusterMember NamedTuple (source lines 21-38). -/
structure V3ClusterMember where
  id : Int
  name : String
  peer_urls : List String
  client_urls : List String
  deriving DecidableEq

/-- V3ClusterMemberHealth NamedTuple (source lines 41-67). -/
structure V3ClusterMemberHealth where
  id : Int
  name : String
  peer_urls : List String
  client_urls : List String
  health : Bool
  took : String
  error : Option String
  deriving DecidableEq

/-- One record of the structured (JSON) health response: the dict shape
consumed at source lines 209-222 with keys endpoint, health, took and an
optional error key. The peer_urls and client_urls keys the legacy branch also
writes (lines 183-184) are never read by the reconciliation loop, which takes
those fields from the matched member, so they are not modelled. -/
structure HealthRecord where
  endpoint : String
  health : Bool
  took : String
  error : Option String
  deriving DecidableEq

/-- One record of the member-listing JSON document, i.e. one element of
parsed["members"] at source line 138. -/
structure MemberRecord where
  ID : Int
  name : String
  peerURLs : List String
  clientURLs : List String
  deriving DecidableEq

/-- The Python exceptions the script can raise on the code paths modelled
here: the three Nagios exceptions (source lines 80-95) plus the built-in
exceptions AssertionError, NameError, json.decoder.JSONDecodeError and
IndexError, which reach the generic handler of the main block. -/
inductive PyExc where
  | nagiosOk (message : String) (multiline : Option String)
  | nagiosWarning (message : String) (multiline : Option String)
  | nagiosCritical (message : String) (multiline : Option String)
  | assertionError (message : String)
  | nameError (name : String)
  | jsonDecodeError
  | indexError
  deriving DecidableEq

/-- The four Nagios severity levels. -/
inductive NagiosLevel where
  | ok
  | warning
  | critical
  | unknown
  deriving DecidableEq

/-- Exit code chosen by the except-chain of the main block (source lines
302-319): NagiosOk exits 0, NagiosWarning 1, NagiosCritical 2, and any other
exception is caught by the generic handler and exits 3. -/
def exitCodeOf : PyExc → Nat
  | .nagiosOk _ _ => 0
  | .nagiosWarning _ _ => 1
  | .nagiosCritical _ _ => 2
  | _ => 3

/-- Severity word printed by the main block for each exception kind. -/
def levelOf : PyExc → NagiosLevel
  | .nagiosOk _ _ => .ok
  | .nagiosWarning _ _ => .warning
  | .nagiosCritical _ _ => .critical
  | _ => .unknown

/-- Numeric severity rank, OK < WARNING < CRITICAL < UNKNOWN. -/
def sevOf : NagiosLevel → Nat
  | .ok => 0
  | .warning => 1
  | .critical => 2
  | .unknown => 3

/-! String helpers modelling the Python primitives used by the script. -/

/-- Splits a list of characters into its maximal space-free run at the front
and the remainder; models what the anchored greedy group `[^ ]+` can match at
the start of a line (it cannot cross a space, and shortening it by
backtracking would put a non-space character right after it where both
patterns require a literal space, so the maximal run is the only candidate). -/
def takeNonSpaceRun : List Char → List Char × List Char
  | [] => ([], [])
  | c :: cs =>
    if c = ' ' then ([], c :: cs)
    else
      let (p, r) := takeNonSpaceRun cs
      (c :: p, r)

/-- The maximal space-free suffix of a line, i.e. everything after the last
space (the whole line when it has no space). -/
def spaceFreeSuffix (l : List Char) : List Char :=
  (l.reverse.takeWhile (fun c => c != ' ')).reverse

/-- Model of `re.match(r"^(?P<endpoint>[^ ]+) is (?P<health>healthy):.+took =
(?P<took>[^ ]+)$", entry)` (source line 166), returning the endpoint and took
groups. The endpoint group is the maximal space-free run at the start of the
line (see takeNonSpaceRun), which must be followed by the literal
" is healthy:". In the remainder, the group `[^ ]+` anchored at `$` must be
the space-free suffix of the line: the character before it inside the
pattern is the space of "took = ", so the suffix after the last space is the
only candidate for the took group; the literal "took = " must sit right
before it and the greedy `.+` needs at least one character before that. -/
def matchHealthy (entry : String) : Option (String × String) :=
  let (endpoint, rest) := takeNonSpaceRun entry.toList
  if endpoint = [] then none
  else if (" is healthy:".toList).isPrefixOf rest then
    let rest2 := rest.drop 12
    let took := spaceFreeSuffix rest2
    let pre := rest2.take (rest2.length - took.length)
    if took ≠ [] ∧ ("took = ".toList).isSuffixOf pre = true ∧ 8 ≤ pre.length then
      some (String.mk endpoint, String.mk took)
    else none
  else none

/-- Model of `re.match(r"^(?P<endpoint>[^ ]+) is (?P<health>unhealthy):
(?P<error>.+)$", entry)` (source line 167), returning the endpoint and error
groups: the maximal space-free run at the start, the literal
" is unhealthy: ", then at least one character making up the error group. -/
def matchUnhealthy (entry : String) : Option (String × String) :=
  let (endpoint, rest) := takeNonSpaceRun entry.toList
  if endpoint = [] then none
  else if (" is unhealthy: ".toList).isPrefixOf rest then
    let err := rest.drop 15
    if err = [] then none else some (String.mk endpoint, String.mk err)
  else none

/-- groupdict() of the healthy matcher: keys endpoint, health, took. -/
def matchHealthyDict (entry : String) : Option (List (String × String)) :=
  (matchHealthy entry).map fun p => [("endpoint", p.1), ("health", "healthy"), ("took", p.2)]

/-- groupdict() of the unhealthy matcher: keys endpoint, health, error.
Note the unhealthy pattern has no took group. -/
def matchUnhealthyDict (entry : String) : Option (List (String × String)) :=
  (matchUnhealthy entry).map fun p => [("endpoint", p.1), ("health", "unhealthy"), ("error", p.2)]

/-- Python `key in dict` on a groupdict modelled as an association list. -/
def dictContains (d : List (String × String)) (k : String) : Bool :=
  d.any (fun kv => kv.1 == k)

/-- Python `dict.get(key, None)` on a groupdict. -/
def dictGet? (d : List (String × String)) (k : String) : Option String :=
  (d.find? (fun kv => kv.1 == k)).map (fun kv => kv.2)

/-- Evaluation of the bare identifier `error` in the expression
`matched_dict.get(error, None)` at source line 185: the module binds no
global named error, the function binds no such local and Python has no such
builtin, so evaluating the name raises NameError before the .get call runs. -/
def unboundNameErrorKey : Except PyExc String := .error (.nameError "error")

/-- The AssertionError message used throughout the legacy parsing loop
(source lines 175-178). -/
def unparsableMsg (entry : String) : String :=
  "Old etcd without JSON support but unparsable line " ++ entry

/-- Source lines 176-187, run after one of the two patterns matched: assert
the endpoint, health and took keys are present in the groupdict (took is
absent from the unhealthy groupdict, so that assert fails on every unhealthy
line); then build the parsed entry, whose error field evaluates the unbound
name `error` and therefore raises NameError. -/
def legacyEntryOfDict (entry : String) (matched_dict : List (String × String))
    (health : Bool) : Except PyExc HealthRecord :=
  if dictContains matched_dict "endpoint" = false then
    Except.error (.assertionError (unparsableMsg entry))
  else if dictContains matched_dict "health" = false then
    Except.error (.assertionError (unparsableMsg entry))
  else if dictContains matched_dict "took" = false then
    Except.error (.assertionError (unparsableMsg entry))
  else do
    let errorKey ← unboundNameErrorKey
    Except.ok
      { endpoint := (dictGet? matched_dict "endpoint").getD ""
      , health := health
      , took := (dictGet? matched_dict "took").getD ""
      , error := dictGet? matched_dict errorKey }

/-- One iteration of the legacy-format loop body, source lines 166-187: try
the healthy pattern, then the unhealthy pattern, raise AssertionError when
neither matches; then run the asserts and entry construction of
legacyEntryOfDict on the groupdict of whichever pattern matched. -/
def parseLegacyLine (entry : String) : Except PyExc HealthRecord :=
  match matchHealthyDict entry with
  | some md => legacyEntryOfDict entry md true
  | none =>
    match matchUnhealthyDict entry with
    | some md => legacyEntryOfDict entry md false
    | none => Except.error (.assertionError (unparsableMsg entry))

/-- The whole legacy-format fallback, source lines 164-187: the loop appends
entries in order and any exception aborts the whole batch. -/
def legacyParseLines : List String → Except PyExc (List HealthRecord)
  | [] => Except.ok []
  | entry :: rest => do
    let e ← parseLegacyLine entry
    let tail ← legacyParseLines rest
    Except.ok (e :: tail)

/-- Split at newline characters, keeping empty segments. -/
def splitOnNl : List Char → List (List Char)
  | [] => [[]]
  | c :: cs =>
    if c = '\n' then [] :: splitOnNl cs
    else
      match splitOnNl cs with
      | [] => [[c]]
      | l :: ls => (c :: l) :: ls

/-- Python str.splitlines() restricted to newline separators: like splitting
on the newline character, except that a trailing empty segment (from a
trailing newline, or from the empty string) is dropped. -/
def pySplitlines (s : String) : List String :=
  let parts := (splitOnNl s.toList).map (fun l => String.mk l)
  if parts.getLast? = some "" then parts.dropLast else parts

/-- Python str.strip(): drop whitespace at both ends. -/
def pyStrip (s : String) : String :=
  String.mk (((s.toList.dropWhile (fun c => c.isWhitespace)).reverse.dropWhile (fun c => c.isWhitespace)).reverse)

/-- The list comprehension `[x.strip() for x in output.splitlines() if x.strip()]`
used at source lines 132 and 192-193: stripped lines, blank ones dropped. -/
def stripNonEmpty (lines : List String) : List String :=
  (lines.map pyStrip).filter (fun x => x != "")

/-- Python "%s" interpolation of an optional string: None prints as "None". -/
def pyStrOpt : Option String → String
  | none => "None"
  | some s => s

/-- Result of the member-listing command (source line 129), abstracted at the
subprocess/json boundary: its exit status, its output split into lines, and
the result of json.loads on the output bytes, already projected onto the
parsed["members"] record list (none when json.loads raises
json.decoder.JSONDecodeError; a document whose valid JSON lacks the expected
keys would raise KeyError, which like JSONDecodeError reaches the generic
exit-3 handler, so it is folded into none as well). -/
structure CmdResult where
  exitcode : Int
  outputLines : List String
  jsonParse : Option (List MemberRecord)

/-- Result of the health-probe command run at source line 159, abstracted the
same way: exit status, stdout and stderr split into lines, and the result of
json.loads on the stdout bytes as a health-record list. json.loads is a pure
function of the bytes, so re-parsing exc.stdout at source line 195 yields
this same value. -/
structure ProbeResult where
  returncode : Int
  stdoutLines : List String
  stderrLines : List String
  jsonParse : Option (List HealthRecord)

/-- The command string built at source line 131 for the member-listing
command: env assignments then the argv words. -/
def members_list_cmd_str (etcdctl_path : String) : String :=
  "ETCDCTL_API=3 " ++ etcdctl_path ++ " member list -w json"

/-- get_v3_members_list, source lines 117-139. A non-zero exit status makes
subprocess.check_output raise CalledProcessError, turned into NagiosCritical
carrying the first non-empty stripped output line (or "No output") and the
full stripped output as the multiline detail. On exit 0 the output is given
to json.loads, whose failure (JSONDecodeError) is NOT caught anywhere in the
function and propagates; on success one V3ClusterMember is built per record,
in order. -/
def get_v3_members_list (etcdctl_path : String) (res : CmdResult) : Except PyExc (List V3ClusterMember) :=
  if res.exitcode != 0 then
    let cmd_str := members_list_cmd_str etcdctl_path
    let stdout_l := stripNonEmpty res.outputLines
    match stdout_l with
    | first :: rest =>
      Except.error (.nagiosCritical
        ("Command " ++ cmd_str ++ " failed with code " ++ toString res.exitcode ++ ": " ++ first)
        (some (String.intercalate "\n" (first :: rest))))
    | [] =>
      Except.error (.nagiosCritical
        ("Command " ++ cmd_str ++ " failed with code " ++ toString res.exitcode ++ ": No output")
        none)
  else
    match res.jsonParse with
    | none => Except.error .jsonDecodeError
    | some doc =>
      Except.ok (doc.map fun x =>
        { id := x.ID, name := x.name, peer_urls := x.peerURLs, client_urls := x.clientURLs })

/-- The endpoint list `[x.peer_urls[0] for x in members]` built at source
line 153 and passed to the health-probe command: the first peer URL of each
member, IndexError on an empty peer-url list. -/
def endpoint_all_members : List V3ClusterMember → Except PyExc (List String)
  | [] => Except.ok []
  | x :: rest =>
    match x.peer_urls with
    | [] => Except.error .indexError
    | u :: _ => do
      let tail ← endpoint_all_members rest
      Except.ok (u :: tail)

/-- The `except subprocess.CalledProcessError` handler of the health probe,
source lines 190-207: re-parse exc.stdout with json.loads; when that
succeeds, rebind parsed and fall through (no raise); when it fails, raise
NagiosCritical with the first non-empty stdout line, else the first non-empty
stderr line, else "No output", plus the combined stripped output as detail. -/
def handleCalledProcessError (cmd_str : String) (res : ProbeResult) : Except PyExc (List HealthRecord) :=
  let stdout_l := stripNonEmpty res.stdoutLines
  let stderr_l := stripNonEmpty res.stderrLines
  match res.jsonParse with
  | some parsed => Except.ok parsed
  | none =>
    let main_line :=
      match stdout_l, stderr_l with
      | first :: _, _ => first
      | [], first :: _ => first
      | [], [] => "No output"
    match stdout_l ++ stderr_l with
    | [] =>
      Except.error (.nagiosCritical
        ("Command " ++ cmd_str ++ " failed with code " ++ toString res.returncode ++ ": " ++ main_line)
        none)
    | l =>
      Except.error (.nagiosCritical
        ("Command " ++ cmd_str ++ " failed with code " ++ toString res.returncode ++ ": " ++ main_line)
        (some (String.intercalate "\n" l)))

/-- The reconciliation loop of get_v3_members_health, source lines 209-223:
for each parsed record, collect the members whose peer_urls contain the
record's endpoint, assert exactly one match (AssertionError otherwise,
aborting the whole run), and emit a V3ClusterMemberHealth combining the
matched member's identity with the record's health, took and error fields. -/
def reconcile (members : List V3ClusterMember) : List HealthRecord → Except PyExc (List V3ClusterMemberHealth)
  | [] => Except.ok []
  | pm :: rest =>
    let matchings := members.filter (fun x => x.peer_urls.contains pm.endpoint)
    match matchings with
    | [matching] => do
      let tail ← reconcile members rest
      Except.ok
        ({ id := matching.id
         , name := matching.name
         , peer_urls := matching.peer_urls
         , client_urls := matching.client_urls
         , health := pm.health
         , took := pm.took
         , error := pm.error } :: tail)
    | _ =>
      Except.error (.assertionError ("Unable to find node definition matching endpoint " ++ pm.endpoint))

/-- get_v3_members_health from the probe invocation on, source lines 158-224.
The member list (source line 152) is the members argument; cmd_str abbreviates
the command string built at source line 191. When json.loads succeeds on
stdout, the `else` clause calls res.check_returncode(): on a non-zero exit the
resulting CalledProcessError is caught by handleCalledProcessError, which
re-parses the same stdout bytes successfully and falls through with the same
records. When json.loads fails, the legacy line formatting is parsed instead
and the exit status is never consulted (AssertionError and NameError from
that loop are not CalledProcessError and propagate). Finally the parsed
records are reconciled against the member list. -/
def get_v3_members_health (cmd_str : String) (members : List V3ClusterMember) (res : ProbeResult) :
    Except PyExc (List V3ClusterMemberHealth) := do
  let parsed : List HealthRecord ←
    match res.jsonParse with
    | some parsed =>
      if res.returncode == 0 then Except.ok parsed
      else handleCalledProcessError cmd_str res
    | none => legacyParseLines res.stdoutLines
  reconcile members parsed

/-- Python `threshold is not None and len(dead_members) >= threshold`
(source lines 243 and 248). -/
def thresholdFires (threshold : Option Int) (deadCount : Nat) : Bool :=
  match threshold with
  | none => false
  | some t => decide ((deadCount : Int) ≥ t)

/-- The list comprehension at source line 237. -/
def healthy_members (members : List V3ClusterMemberHealth) : List V3ClusterMemberHealth :=
  members.filter (fun x => x.health == true)

/-- The list comprehension at source line 238. -/
def dead_members (members : List V3ClusterMemberHealth) : List V3ClusterMemberHealth :=
  members.filter (fun x => x.health == false)

/-- The joined "name: error" pairs used in the summary lines at source
lines 245, 250 and 257. -/
def member_summary (xs : List V3ClusterMemberHealth) : String :=
  String.intercalate ", " (xs.map (fun x => x.name ++ ": " ++ pyStrOpt x.error))

/-- check_cluster_members from the health records on, source lines 236-258:
builds the per-member detail body, then raises NagiosCritical when the
critical threshold is set and the dead count reaches it, else NagiosWarning
when the warning threshold is set and the dead count reaches it, else
NagiosOk (with healthy names when nothing is dead, with the dead pairs
otherwise). The raised exception is the function's outcome, returned here. -/
def check_cluster_members (members : List V3ClusterMemberHealth)
    (warning critical : Option Int) : PyExc :=
  let lines_healthy := (healthy_members members).map (fun x => x.name ++ ": healthy: took " ++ x.took)
  let lines_dead := (dead_members members).map (fun x => x.name ++ ": dead: took " ++ x.took ++ ": " ++ pyStrOpt x.error)
  let multiline := String.intercalate "\n" (lines_healthy ++ lines_dead)
  let headline := toString (healthy_members members).length ++ "/" ++ toString members.length ++ " healthy nodes: "
  if thresholdFires critical (dead_members members).length then
    .nagiosCritical (headline ++ member_summary (dead_members members)) (some multiline)
  else if thresholdFires warning (dead_members members).length then
    .nagiosWarning (headline ++ member_summary (dead_members members)) (some multiline)
  else if (dead_members members).isEmpty then
    .nagiosOk (headline ++ String.intercalate ", " ((healthy_members members).map (fun x => x.name))) (some multiline)
  else
    .nagiosOk (headline ++ member_summary (dead_members members)) (some multiline)

/-- The legacy-format probe output of Scenario D: one healthy line and one
unhealthy line. -/
def legacyDocD : String :=
  "10.0.0.1:2380 is healthy: took = 3ms\n10.0.0.2:2380 is unhealthy: context deadline exceeded"

/-! Helper lemmas shared by the claim theorems. -/

/-- The severity level raised by check_cluster_members depends only on the
thresholds and the dead-member count, by the source's if-chain of lines
243-258 (both residual branches raise NagiosOk). -/
theorem levelOf_check_cluster_members (members : List V3ClusterMemberHealth)
    (warning critical : Option Int) :
    levelOf (check_cluster_members members warning critical) =
      if thresholdFires critical (dead_members members).length then NagiosLevel.critical
      else if thresholdFires warning (dead_members members).length then NagiosLevel.warning
      else NagiosLevel.ok := by
  by_cases h1 : thresholdFires critical (dead_members members).length
  · simp [check_cluster_members, h1, levelOf]
  · by_cases h2 : thresholdFires warning (dead_members members).length
    · simp [check_cluster_members, h1, h2, levelOf]
    · by_cases h3 : (dead_members members).isEmpty <;>
        simp [check_cluster_members, h1, h2, h3, levelOf]

/-- A threshold that fires at some dead count also fires at any larger one. -/
theorem thresholdFires_mono (t : Option Int) {d1 d2 : Nat} (h : d1 ≤ d2)
    (hf : thresholdFires t d1 = true) : thresholdFires t d2 = true := by
  cases t with
  | none => simp [thresholdFires] at hf
  | some v =>
    simp only [thresholdFires, decide_eq_true_eq] at hf ⊢
    omega

/-- When json.loads succeeds on the probe stdout, get_v3_members_health is
exactly reconciliation of the parsed records: on exit 0 the records are used
directly, and on a non-zero exit the CalledProcessError handler re-parses the
same bytes and falls through with the same records. -/
theorem get_health_of_jsonParse (cmd_str : String) (members : List V3ClusterMember)
    (res : ProbeResult) (parsed : List HealthRecord) (hjson : res.jsonParse = some parsed) :
    get_v3_members_health cmd_str members res = reconcile members parsed := by
  by_cases hr : res.returncode == 0 <;>
    simp [get_v3_members_health, hjson, hr, handleCalledProcessError, bind, Except.bind]

/-! Claim theorems. -/

/-- C3: For every record set and every pair of set thresholds, the critical
rule is tested before the warning rule: if both thresholds are set and the
dead-member count is at least critical, the verdict level is CRITICAL even
when the count also reaches warning. -/
theorem critical_checked_before_warning (members : List V3ClusterMemberHealth)
    (w c : Int) (h : ((dead_members members).length : Int) ≥ c) :
    levelOf (check_cluster_members members (some w) (some c)) = NagiosLevel.critical := by
  rw [levelOf_check_cluster_members]
  have hf : thresholdFires (some c) (dead_members members).length = true := by
    simp only [thresholdFires, ge_iff_le, decide_eq_true_eq]
    omega
  simp [hf]

/-- C3 witness: with three dead members, warning=1 and critical=2, the dead
count reaches the critical threshold and the verdict is CRITICAL, not
WARNING. -/
theorem critical_checked_before_warning_witness :
    ((dead_members
      [⟨1, "a", ["pa"], [], false, "1ms", some "down"⟩,
       ⟨2, "b", ["pb"], [], false, "1ms", some "down"⟩,
       ⟨3, "c", ["pc"], [], false, "1ms", some "down"⟩]).length : Int) ≥ 2 ∧
    levelOf (check_cluster_members
      [⟨1, "a", ["pa"], [], false, "1ms", some "down"⟩,
       ⟨2, "b", ["pb"], [], false, "1ms", some "down"⟩,
       ⟨3, "c", ["pc"], [], false, "1ms", some "down"⟩] (some 1) (some 2)) = NagiosLevel.critical :=
  ⟨by decide, critical_checked_before_warning _ 1 2 (by decide)⟩

/-- C4: Evaluation is monotonic in the dead-member count: for fixed
(possibly unset) thresholds, a record set with at least as many dead members
gets a verdict at least as severe on the scale OK < WARNING < CRITICAL. -/
theorem evaluation_monotone_in_dead_count (w c : Option Int)
    (m1 m2 : List V3ClusterMemberHealth)
    (h : (dead_members m1).length ≤ (dead_members m2).length) :
    sevOf (levelOf (check_cluster_members m1 w c)) ≤
      sevOf (levelOf (check_cluster_members m2 w c)) := by
  rw [levelOf_check_cluster_members, levelOf_check_cluster_members]
  by_cases hc2 : thresholdFires c (dead_members m2).length
  · rw [if_pos hc2]
    by_cases hc1 : thresholdFires c (dead_members m1).length
    · simp [hc1, sevOf]
    · by_cases hw1 : thresholdFires w (dead_members m1).length <;> simp [hc1, hw1, sevOf]
  · have hc1 : ¬ thresholdFires c (dead_members m1).length := fun hx =>
      hc2 (thresholdFires_mono c h hx)
    rw [if_neg hc1, if_neg hc2]
    by_cases hw2 : thresholdFires w (dead_members m2).length
    · rw [if_pos hw2]
      by_cases hw1 : thresholdFires w (dead_members m1).length <;> simp [hw1, sevOf]
    · have hw1 : ¬ thresholdFires w (dead_members m1).length := fun hx =>
        hw2 (thresholdFires_mono w h hx)
      rw [if_neg hw1, if_neg hw2]

/-- C4 witness: one all-healthy set against one all-dead set under
warning=1: severity 0 (OK) against severity 1 (WARNING). -/
theorem evaluation_monotone_in_dead_count_witness :
    (dead_members [⟨1, "a", ["pa"], [], true, "1ms", none⟩]).length ≤
      (dead_members [⟨1, "a", ["pa"], [], false, "9ms", some "down"⟩]).length ∧
    sevOf (levelOf (check_cluster_members [⟨1, "a", ["pa"], [], true, "1ms", none⟩] (some 1) none)) ≤
      sevOf (levelOf (check_cluster_members [⟨1, "a", ["pa"], [], false, "9ms", some "down"⟩] (some 1) none)) :=
  ⟨by decide, evaluation_monotone_in_dead_count (some 1) none _ _ (by decide)⟩

/-- C5: when each threshold is unset or the dead-member count is below it,
the verdict level is OK, even when dead members are present. -/
theorem no_threshold_fires_reports_ok (members : List V3ClusterMemberHealth)
    (w c : Option Int)
    (hc : c = none ∨ ∃ cv, c = some cv ∧ ((dead_members members).length : Int) < cv)
    (hw : w = none ∨ ∃ wv, w = some wv ∧ ((dead_members members).length : Int) < wv) :
    levelOf (check_cluster_members members w c) = NagiosLevel.ok := by
  rw [levelOf_check_cluster_members]
  have hc' : thresholdFires c (dead_members members).length = false := by
    rcases hc with h | ⟨cv, rfl, hlt⟩
    · subst h; rfl
    · simp only [thresholdFires, ge_iff_le, decide_eq_false_iff_not, not_le]
      omega
  have hw' : thresholdFires w (dead_members members).length = false := by
    rcases hw with h | ⟨wv, rfl, hlt⟩
    · subst h; rfl
    · simp only [thresholdFires, ge_iff_le, decide_eq_false_iff_not, not_le]
      omega
  simp [hc', hw']

/-- C5 witness: a cluster with one dead member and no configured thresholds
is still reported OK. -/
theorem no_threshold_fires_reports_ok_witness :
    levelOf (check_cluster_members
      [⟨1, "a", ["pa"], [], false, "9ms", some "down"⟩] none none) = NagiosLevel.ok :=
  no_threshold_fires_reports_ok _ none none (Or.inl rfl) (Or.inl rfl)

/-- C10: a threshold of zero always fires, because the comparison is an
inclusive greater-or-equal and the dead count is never negative: a set
critical threshold of 0 yields CRITICAL for every record set and any warning
threshold, and a sole warning threshold of 0 yields WARNING. -/
theorem zero_threshold_always_fires (members : List V3ClusterMemberHealth) (w : Option Int) :
    levelOf (check_cluster_members members w (some 0)) = NagiosLevel.critical ∧
    levelOf (check_cluster_members members (some 0) none) = NagiosLevel.warning := by
  have h0 : thresholdFires (some 0) (dead_members members).length = true := by
    simp only [thresholdFires, ge_iff_le, decide_eq_true_eq]
    omega
  constructor
  · rw [levelOf_check_cluster_members]
    simp [h0]
  · rw [levelOf_check_cluster_members]
    simp [thresholdFires, h0]

/-- On a healthy groupdict the three asserts pass (its keys are endpoint,
health, took) and the entry construction faults on the unbound name error. -/
theorem legacyEntryOfDict_healthy (entry ep took : String) :
    legacyEntryOfDict entry [("endpoint", ep), ("health", "healthy"), ("took", took)] true =
      Except.error (.nameError "error") := rfl

/-- On an unhealthy groupdict (keys endpoint, health, error) the assert on
the took key fails, raising AssertionError. -/
theorem legacyEntryOfDict_unhealthy (entry ep err : String) :
    legacyEntryOfDict entry [("endpoint", ep), ("health", "unhealthy"), ("error", err)] false =
      Except.error (.assertionError (unparsableMsg entry)) := rfl

/-- Every line makes the legacy loop body raise: an unmatched line raises
AssertionError directly, an unhealthy line fails the took-key assert, and a
healthy line reaches the evaluation of the unbound name error. All three
exceptions reach the generic handler of the main block and exit 3. -/
theorem parseLegacyLine_always_faults (entry : String) :
    ∃ e, parseLegacyLine entry = Except.error e ∧ exitCodeOf e = 3 := by
  unfold parseLegacyLine
  cases hh : matchHealthy entry with
  | some p =>
    refine ⟨.nameError "error", ?_, rfl⟩
    simp [matchHealthyDict, hh, legacyEntryOfDict_healthy]
  | none =>
    cases hu : matchUnhealthy entry with
    | some p =>
      refine ⟨.assertionError (unparsableMsg entry), ?_, rfl⟩
      simp [matchHealthyDict, matchUnhealthyDict, hh, hu, legacyEntryOfDict_unhealthy]
    | none =>
      refine ⟨.assertionError (unparsableMsg entry), ?_, rfl⟩
      simp [matchHealthyDict, matchUnhealthyDict, hh, hu]

/-- Unfolding equation for one step of the reconciliation loop. -/
theorem reconcile_cons (members : List V3ClusterMember) (pm : HealthRecord)
    (rest : List HealthRecord) :
    reconcile members (pm :: rest) =
      (match members.filter (fun x => x.peer_urls.contains pm.endpoint) with
      | [matching] => do
        let tail ← reconcile members rest
        Except.ok
          ({ id := matching.id
           , name := matching.name
           , peer_urls := matching.peer_urls
           , client_urls := matching.client_urls
           , health := pm.health
           , took := pm.took
           , error := pm.error } :: tail)
      | _ =>
        Except.error (.assertionError ("Unable to find node definition matching endpoint " ++ pm.endpoint))) := rfl

/-- When some record's endpoint is contained in the peer_urls of a number of
members other than one, the reconciliation loop raises AssertionError. -/
theorem reconcile_error_of_nonunique (members : List V3ClusterMember)
    (records : List HealthRecord)
    (hbad : ∃ r ∈ records, (members.filter (fun x => x.peer_urls.contains r.endpoint)).length ≠ 1) :
    ∃ msg, reconcile members records = Except.error (.assertionError msg) := by
  induction records with
  | nil => simp at hbad
  | cons pm rest ih =>
    obtain ⟨r, hr, hlen⟩ := hbad
    rcases List.mem_cons.mp hr with rfl | hmem
    · cases hm : members.filter (fun x => x.peer_urls.contains r.endpoint) with
      | nil => exact ⟨_, by rw [reconcile_cons, hm]⟩
      | cons a tail =>
        cases tail with
        | nil => exact absurd (by rw [hm]; rfl) hlen
        | cons b t => exact ⟨_, by rw [reconcile_cons, hm]⟩
    · cases hm : members.filter (fun x => x.peer_urls.contains pm.endpoint) with
      | nil => exact ⟨_, by rw [reconcile_cons, hm]⟩
      | cons a tail =>
        cases tail with
        | nil =>
          obtain ⟨msg, hmsg⟩ := ih ⟨r, hmem, hlen⟩
          exact ⟨msg, by rw [reconcile_cons, hm]; simp [hmsg, bind, Except.bind]⟩
        | cons b t => exact ⟨_, by rw [reconcile_cons, hm]⟩

/-- C6: whenever the number of members whose peer_urls contain an observed
endpoint is not exactly one, the probe run fails with AssertionError, which
surfaces as UNKNOWN with exit code 3; it never returns a reconciled list. -/
theorem reconciliation_requires_unique_match (cmd_str : String)
    (members : List V3ClusterMember) (res : ProbeResult) (records : List HealthRecord)
    (hjson : res.jsonParse = some records)
    (hbad : ∃ r ∈ records, (members.filter (fun x => x.peer_urls.contains r.endpoint)).length ≠ 1) :
    ∃ msg, get_v3_members_health cmd_str members res = Except.error (.assertionError msg) ∧
      levelOf (.assertionError msg) = NagiosLevel.unknown ∧
      exitCodeOf (.assertionError msg) = 3 := by
  obtain ⟨msg, hmsg⟩ := reconcile_error_of_nonunique members records hbad
  exact ⟨msg, by rw [get_health_of_jsonParse cmd_str members res records hjson]; exact hmsg, rfl, rfl⟩

/-- C6 witness: two members advertising the same peer URL match one observed
endpoint, and the run fails as UNKNOWN instead of picking either. -/
theorem reconciliation_requires_unique_match_witness :
    (∃ r ∈ [(⟨"p", true, "1ms", none⟩ : HealthRecord)],
      (([⟨1, "a", ["p"], []⟩, ⟨2, "b", ["p"], []⟩] : List V3ClusterMember).filter
        (fun x => x.peer_urls.contains r.endpoint)).length ≠ 1) ∧
    ∃ msg, get_v3_members_health "cmd" [⟨1, "a", ["p"], []⟩, ⟨2, "b", ["p"], []⟩]
        ⟨0, [], [], some [⟨"p", true, "1ms", none⟩]⟩ = Except.error (.assertionError msg) ∧
      levelOf (.assertionError msg) = NagiosLevel.unknown ∧
      exitCodeOf (.assertionError msg) = 3 :=
  ⟨by decide, reconciliation_requires_unique_match "cmd" _ _ _ rfl (by decide)⟩

/-- C7: when some non-blank line of a legacy-format probe output matches
neither the healthy nor the unhealthy pattern, the whole batch is rejected
with a fatal exception that surfaces as UNKNOWN with exit code 3; no
observation list is produced from the remaining lines. -/
theorem legacy_unmatched_line_rejects_batch (lines : List String) (l : String)
    (hmem : l ∈ lines) (hblank : l ≠ "")
    (hh : matchHealthy l = none) (hu : matchUnhealthy l = none) :
    ∃ e, legacyParseLines lines = Except.error e ∧ exitCodeOf e = 3 := by
  cases lines with
  | nil => cases hmem
  | cons a rest =>
    obtain ⟨e, he, hcode⟩ := parseLegacyLine_always_faults a
    exact ⟨e, by simp [legacyParseLines, he, bind, Except.bind], hcode⟩

/-- C7 witness: a well-formed healthy line followed by a garbage line: the
batch is rejected with exit code 3 and no observations are produced. -/
theorem legacy_unmatched_line_rejects_batch_witness :
    ∃ e, legacyParseLines ["10.0.0.1:2380 is healthy: took = 3ms", "garbage"] =
      Except.error e ∧ exitCodeOf e = 3 :=
  legacy_unmatched_line_rejects_batch _ "garbage" (by decide) (by decide) rfl rfl

/-- C1 (evaluation at the failing input): the two-line legacy document of
Scenario D does not parse to two observations; the loop faults on its very
first, well-formed healthy line with NameError from the unbound identifier
`error` at source line 185, surfacing as UNKNOWN with exit 3, and an
unhealthy line on its own faults on the assert of the took key, which the
unhealthy groupdict never has (source lines 167 and 178). -/
theorem legacy_scenario_d_faults :
    legacyParseLines (pySplitlines legacyDocD) = Except.error (.nameError "error") ∧
    exitCodeOf (.nameError "error") = 3 ∧
    parseLegacyLine "10.0.0.2:2380 is unhealthy: context deadline exceeded" =
      Except.error (.assertionError
        (unparsableMsg "10.0.0.2:2380 is unhealthy: context deadline exceeded")) :=
  ⟨rfl, rfl, rfl⟩

/-- C2 counterexample: a probe whose stdout parses as structured JSON but
whose command exits 1 does not fail fatally; the run proceeds to
reconciliation and returns the reconciled records. -/
theorem structured_nonzero_exit_proceeds_cex :
    get_v3_members_health "cmd" [⟨1, "node1", ["https://10.0.0.1:2380"], []⟩]
      ⟨1, [], [], some [⟨"https://10.0.0.1:2380", true, "3ms", none⟩]⟩ =
      Except.ok [⟨1, "node1", ["https://10.0.0.1:2380"], [], true, "3ms", none⟩] := rfl

/-- C2 amended: when the probe stdout parses as structured JSON, the exit
status is checked (check_returncode at source line 189) but has no effect:
the raised CalledProcessError is caught and stdout re-parsed as JSON, which
succeeds on the same bytes, so for any exit status the run proceeds to
reconciliation and evaluation with the parsed records. -/
theorem structured_parse_ignores_exit_status (cmd_str : String)
    (members : List V3ClusterMember) (res : ProbeResult) (parsed : List HealthRecord)
    (hjson : res.jsonParse = some parsed) :
    get_v3_members_health cmd_str members res = reconcile members parsed :=
  get_health_of_jsonParse cmd_str members res parsed hjson

/-- C2 amended witness: the non-zero-exit probe of the counterexample is
handled exactly as reconciliation of its parsed records. -/
theorem structured_parse_ignores_exit_status_witness :
    get_v3_members_health "cmd" [⟨1, "node1", ["https://10.0.0.1:2380"], []⟩]
      ⟨1, [], [], some [⟨"https://10.0.0.1:2380", true, "3ms", none⟩]⟩ =
      reconcile [⟨1, "node1", ["https://10.0.0.1:2380"], []⟩]
        [⟨"https://10.0.0.1:2380", true, "3ms", none⟩] :=
  structured_parse_ignores_exit_status "cmd" _ _ _ rfl

/-- C8 counterexample: a member-listing command that exits 0 with output
that is not parseable as the expected structured record fails with an
uncaught JSONDecodeError, which surfaces as UNKNOWN with exit code 3, not as
CRITICAL with exit code 2. -/
theorem list_members_parse_failure_not_critical_cex :
    get_v3_members_list "etcdctl" ⟨0, ["garbage"], none⟩ = Except.error .jsonDecodeError ∧
    levelOf .jsonDecodeError = NagiosLevel.unknown ∧
    exitCodeOf .jsonDecodeError = 3 ∧ exitCodeOf .jsonDecodeError ≠ 2 :=
  ⟨rfl, rfl, rfl, by decide⟩

/-- C8 amended: list_members raises NagiosCritical (exit 2) with the first
non-empty output line in the one-line message and the full stripped output
as detail only when the command exits non-zero; when the command exits zero
but its output is not parseable as the expected structured record, the
JSONDecodeError is not caught and surfaces as UNKNOWN with exit code 3. -/
theorem list_members_failure_modes (etcdctl_path : String) (res : CmdResult) :
    (res.exitcode ≠ 0 → ∀ first rest, stripNonEmpty res.outputLines = first :: rest →
      get_v3_members_list etcdctl_path res =
        Except.error (.nagiosCritical
          ("Command " ++ members_list_cmd_str etcdctl_path ++ " failed with code " ++
            toString res.exitcode ++ ": " ++ first)
          (some (String.intercalate "\n" (first :: rest)))) ∧
      exitCodeOf (.nagiosCritical
          ("Command " ++ members_list_cmd_str etcdctl_path ++ " failed with code " ++
            toString res.exitcode ++ ": " ++ first)
          (some (String.intercalate "\n" (first :: rest)))) = 2) ∧
    (res.exitcode = 0 → res.jsonParse = none →
      get_v3_members_list etcdctl_path res = Except.error .jsonDecodeError ∧
      exitCodeOf .jsonDecodeError = 3) := by
  constructor
  · intro hne first rest hlines
    have hb : (res.exitcode != 0) = true := by simp [hne]
    refine ⟨?_, rfl⟩
    simp only [get_v3_members_list, hb, if_true, hlines]
  · intro h0 hjson
    have hb : (res.exitcode != 0) = false := by simp [h0]
    refine ⟨?_, rfl⟩
    simp only [get_v3_members_list, hb, Bool.false_eq_true, if_false, hjson]

/-- C8 amended witness: a non-zero exit with stderr-style output merged into
stdout yields NagiosCritical with that line, and a zero exit with
unparseable output yields the uncaught JSONDecodeError. -/
theorem list_members_failure_modes_witness :
    get_v3_members_list "etcdctl" ⟨1, [" context deadline exceeded "], none⟩ =
      Except.error (.nagiosCritical
        ("Command " ++ members_list_cmd_str "etcdctl" ++ " failed with code " ++
          toString (1 : Int) ++ ": " ++ "context deadline exceeded")
        (some (String.intercalate "\n" ["context deadline exceeded"]))) ∧
    get_v3_members_list "etcdctl" ⟨0, ["not json"], none⟩ = Except.error .jsonDecodeError :=
  ⟨((list_members_failure_modes "etcdctl" ⟨1, [" context deadline exceeded "], none⟩).1
      (by decide) "context deadline exceeded" [] (by decide)).1,
   ((list_members_failure_modes "etcdctl" ⟨0, ["not json"], none⟩).2 rfl rfl).1⟩

/-- The probe endpoints computed for the member list produced from a
well-formed document are the first peerURLs entry of each record. -/
theorem endpoint_all_members_map : ∀ (doc : List MemberRecord),
    (∀ r ∈ doc, r.peerURLs ≠ []) →
    endpoint_all_members (doc.map (fun x =>
      { id := x.ID, name := x.name, peer_urls := x.peerURLs, client_urls := x.clientURLs })) =
      Except.ok (doc.map (fun r => r.peerURLs.headD ""))
  | [], _ => rfl
  | r :: rest, hne => by
    have hr : r.peerURLs ≠ [] := hne r (List.mem_cons_self r rest)
    have ih := endpoint_all_members_map rest (fun x hx => hne x (List.mem_cons_of_mem _ hx))
    cases hru : r.peerURLs with
    | nil => exact absurd hru hr
    | cons u us =>
      simp only [List.map_cons, endpoint_all_members, hru, ih, bind, Except.bind, List.headD_cons]

/-- C9: for every well-formed structured member-listing response,
get_v3_members_list returns one member per input record in the same order,
with id and name and peer_urls taken from the record unchanged, and the
endpoint list used for probing is the first peerURLs entry of each record. -/
theorem list_members_order_id_canonical (etcdctl_path : String) (lines : List String)
    (doc : List MemberRecord) (hne : ∀ r ∈ doc, r.peerURLs ≠ []) :
    ∃ ms, get_v3_members_list etcdctl_path ⟨0, lines, some doc⟩ = Except.ok ms ∧
      ms.length = doc.length ∧
      (∀ i (hi : i < ms.length) (hd : i < doc.length),
        (ms.get ⟨i, hi⟩).id = (doc.get ⟨i, hd⟩).ID ∧
        (ms.get ⟨i, hi⟩).name = (doc.get ⟨i, hd⟩).name ∧
        (ms.get ⟨i, hi⟩).peer_urls = (doc.get ⟨i, hd⟩).peerURLs) ∧
      endpoint_all_members ms = Except.ok (doc.map (fun r => r.peerURLs.headD "")) := by
  have hms : get_v3_members_list etcdctl_path ⟨0, lines, some doc⟩ =
      Except.ok (doc.map (fun x =>
        ({ id := x.ID, name := x.name, peer_urls := x.peerURLs, client_urls := x.clientURLs } : V3ClusterMember))) := rfl
  refine ⟨_, hms, by simp, ?_, endpoint_all_members_map doc hne⟩
  intro i hi hd
  simp [List.get_eq_getElem, List.getElem_map]

/-- C9 witness: a concrete two-record document. -/
theorem list_members_order_id_canonical_witness :
    ∃ ms, get_v3_members_list "etcdctl"
        ⟨0, [], some [⟨11, "na", ["pa1", "pa2"], []⟩, ⟨22, "nb", ["pb1"], ["cb"]⟩]⟩ = Except.ok ms ∧
      ms.length = ([⟨11, "na", ["pa1", "pa2"], []⟩, ⟨22, "nb", ["pb1"], ["cb"]⟩] : List MemberRecord).length ∧
      (∀ i (hi : i < ms.length)
        (hd : i < ([⟨11, "na", ["pa1", "pa2"], []⟩, ⟨22, "nb", ["pb1"], ["cb"]⟩] : List MemberRecord).length),
        (ms.get ⟨i, hi⟩).id = (([⟨11, "na", ["pa1", "pa2"], []⟩, ⟨22, "nb", ["pb1"], ["cb"]⟩] : List MemberRecord).get ⟨i, hd⟩).ID ∧
        (ms.get ⟨i, hi⟩).name = (([⟨11, "na", ["pa1", "pa2"], []⟩, ⟨22, "nb", ["pb1"], ["cb"]⟩] : List MemberRecord).get ⟨i, hd⟩).name ∧
        (ms.get ⟨i, hi⟩).peer_urls = (([⟨11, "na", ["pa1", "pa2"], []⟩, ⟨22, "nb", ["pb1"], ["cb"]⟩] : List MemberRecord).get ⟨i, hd⟩).peerURLs) ∧
      endpoint_all_members ms =
        Except.ok (([⟨11, "na", ["pa1", "pa2"], []⟩, ⟨22, "nb", ["pb1"], ["cb"]⟩] : List MemberRecord).map
          (fun r => r.peerURLs.headD "")) :=
  list_members_order_id_canonical "etcdctl" [] _ (by decide)
